import Mathlib

/-!
Verification of the `docker_machine` Ansible inventory plugin
(`src/docker_machine.py`) against its natural-language specification.

The embedding models the Python string primitives the plugin relies on
(`str.strip`, `str.split`, `str.splitlines`, the `in` operator and
`str.format` with explicit positional fields), the plugin's inventory
mutations, and the `_populate` discovery pass as a state-threading
computation over an explicit external world (the `docker-machine` CLI,
`json.loads`, and the constructed-inventory collaborator).
-/

namespace DockerMachine

/-- Characters removed by Python `str.strip()` with no argument
(ASCII whitespace; the model ignores non-ASCII Unicode whitespace,
which none of the inputs here contain). -/
def isPySpace (c : Char) : Bool :=
  c == ' ' || c == '\t' || c == '\n' || c == '\r' || c == '\x0b' || c == '\x0c'

/-- Python `str.strip()` on a character list: drops leading and
trailing whitespace. -/
def pyStripL (l : List Char) : List Char :=
  ((l.dropWhile isPySpace).reverse.dropWhile isPySpace).reverse

/-- Python `str.strip()`. -/
def pyStrip (s : String) : String :=
  String.mk (pyStripL s.data)

/-- Splitting worker: splits a character list on every (non-overlapping,
leftmost-first) occurrence of the non-empty separator `sep`.  `fuel`
bounds the recursion; any `fuel` of at least `l.length + 1` gives the
Python `str.split(sep)` behaviour. -/
def splitGo (sep : List Char) : Nat → List Char → List (List Char)
  | 0, rest => [rest]
  | fuel + 1, rest =>
    match rest with
    | [] => [[]]
    | c :: tail =>
      if sep.isPrefixOf rest then
        [] :: splitGo sep fuel (rest.drop sep.length)
      else
        match splitGo sep fuel tail with
        | [] => [[c]]
        | piece :: more => (c :: piece) :: more

/-- Python `s.split(sep)` for a non-empty separator `sep` (Python raises
`ValueError` on an empty separator; callers model that case separately). -/
def pySplitStr (s sep : String) : List String :=
  (splitGo sep.data (s.data.length + 1) s.data).map String.mk

/-- Joins pieces with a separator (inverse of splitting). -/
def joinSep (sep : String) : List String → String
  | [] => ""
  | [x] => x
  | x :: xs => x ++ sep ++ joinSep sep xs

/-- Python `sub in s`: true when `sub` is the empty string or `sub`
occurs in `s` (a non-empty `sub` occurs in `s` exactly when splitting
on it produces at least two pieces). -/
def pyIn (sub s : String) : Prop :=
  sub = "" ∨ 2 ≤ (pySplitStr s sub).length

instance (sub s : String) : Decidable (pyIn sub s) :=
  inferInstanceAs (Decidable (_ ∨ _))

/-- Python `str.splitlines()` restricted to `\n` line breaks (the only
break the plugin's stripped CLI output can contain in this model);
faithfully returns `[]` on the empty string. -/
def pySplitlines (s : String) : List String :=
  if s = "" then [] else pySplitStr s "\n"

/-- Errors raised by Python `str.format`. -/
inductive FormatError
  | indexOutOfRange (idx : Nat)
  | badField (field : String)
deriving DecidableEq, Repr

/-- Reads an explicit positional replacement field such as `1`. -/
def fieldIndex (field : String) : Option Nat :=
  if field ≠ "" ∧ field.data.all Char.isDigit then
    some (field.data.foldl (fun n c => 10 * n + (c.toNat - 48)) 0)
  else none

/-- Processes the chunks following each `\x7b` of a format string:
each chunk is `field\x7drest`.  A replacement index not smaller than the
number of arguments raises `IndexError`, as in Python. -/
def pyFormatChunks (args : List String) : List String → Except FormatError String
  | [] => .ok ""
  | chunk :: more =>
    match pySplitStr chunk "\x7d" with
    | field :: restParts =>
      match fieldIndex field with
      | some idx =>
        match args.get? idx with
        | some a =>
          (pyFormatChunks args more).map
            (fun s => a ++ joinSep "\x7d" restParts ++ s)
        | none => .error (.indexOutOfRange idx)
      | none => .error (.badField field)
    | [] => .error (.badField chunk)

/-- Python `template.format(*args)` for templates whose only braces are
explicit positional replacement fields (`\x7b0\x7d`, `\x7b1\x7d`, ...), which is
the shape of every format string in `docker_machine.py`. -/
def pyFormat (template : String) (args : List String) : Except FormatError String :=
  match pySplitStr template "\x7b" with
  | [] => .ok ""
  | lit0 :: chunks => (pyFormatChunks args chunks).map (fun s => lit0 ++ s)

/-- JSON values, as produced by Python's `json.loads` (which itself is
an external library; worlds below supply its result). -/
inductive Json
  | str (s : String)
  | num (n : Int)
  | bool (b : Bool)
  | null
  | arr (elems : List Json)
  | obj (fields : List (String × Json))

/-- The Python exceptions that can escape one iteration of the
`_populate` loop (they are wrapped into a single `AnsibleError` by the
handler at lines 161-163). -/
inductive NodeError
  | toolError                    -- subprocess.CalledProcessError / OSError / UnicodeDecodeError
  | jsonError                    -- json.loads failure
  | keyError (k : String)        -- missing dict key in the node descriptor
  | typeError                    -- wrong shape / a call missing a required argument
  | formatError (e : FormatError)  -- str.format IndexError
  | attributeError               -- .group(1) on a failed re.search (None)
  | valueError                   -- tuple-unpacking mismatch or empty split separator
  | ruleError                    -- raised by the constructed-inventory collaborator
deriving DecidableEq, Repr

/-- The single wrapped discovery failure (`AnsibleError('Unable to fetch
hosts from Docker machine, ...')`, lines 161-163) carrying its cause. -/
inductive DiscoveryError
  | wrapped (cause : NodeError)
deriving DecidableEq, Repr

/-- A parsed tag: either a bare name or a key/value pair. -/
inductive TagEntry
  | bare (name : String)
  | pair (key value : String)
deriving DecidableEq, Repr

/-- The inventory graph mutated by `_populate`: groups, hosts, group
memberships `(group, host)` and host variables `(host, name, value)`. -/
structure Inventory where
  groups : List String
  hosts : List String
  members : List (String × String)
  hostVars : List (String × String × Json)

/-- `inventory.add_group(name)`: records the group if new. -/
def addGroup (inv : Inventory) (g : String) : Inventory :=
  if g ∈ inv.groups then inv else { inv with groups := inv.groups ++ [g] }

/-- `inventory.add_host(id)` with no group: records the host if new. -/
def addHost (inv : Inventory) (id : String) : Inventory :=
  if id ∈ inv.hosts then inv else { inv with hosts := inv.hosts ++ [id] }

/-- `inventory.add_host(id, group=g)`: records the host and its
membership in `g`. -/
def addHostToGroup (inv : Inventory) (id g : String) : Inventory :=
  if (g, id) ∈ (addHost inv id).members then addHost inv id
  else { addHost inv id with members := (addHost inv id).members ++ [(g, id)] }

/-- Replaces the value of variable `k` of host `h` (dictionary
semantics: last write wins), appending when absent. -/
def setVarList : List (String × String × Json) → String → String → Json →
    List (String × String × Json)
  | [], h, k, v => [(h, k, v)]
  | (h', k', v') :: rest, h, k, v =>
    if h' = h ∧ k' = k then (h, k, v) :: rest
    else (h', k', v') :: setVarList rest h k v

/-- `inventory.set_variable(id, k, v)`. -/
def setVariable (inv : Inventory) (h k : String) (v : Json) : Inventory :=
  { inv with hostVars := setVarList inv.hostVars h k v }

/-- Host `h` is a member of group `g` in `inv`. -/
def memberOf (inv : Inventory) (g h : String) : Prop :=
  (g, h) ∈ inv.members

instance (inv : Inventory) (g h : String) : Decidable (memberOf inv g h) :=
  inferInstanceAs (Decidable (_ ∈ _))

/-- The inventory state after line 88 (`self.inventory.add_group('all')`)
and before anything else: only the group `all`, no hosts, no
memberships, no variables. -/
def initialInventory : Inventory :=
  addGroup ⟨[], [], [], []⟩ "all"

/-- A per-node computation in `_populate`: it threads the mutable
`self.inventory` and can stop with a Python exception.  Mutations made
before the exception persist (in-place mutation semantics). -/
def NodeM (α : Type) : Type :=
  Inventory → Inventory × Except NodeError α

instance : Monad NodeM where
  pure a := fun inv => (inv, .ok a)
  bind x f := fun inv =>
    match x inv with
    | (inv', .ok a) => f a inv'
    | (inv', .error e) => (inv', .error e)

/-- Runs a pure inventory mutation. -/
def mutate (f : Inventory → Inventory) : NodeM Unit :=
  fun inv => (f inv, .ok ())

/-- Lifts a fallible pure step (no inventory access). -/
def liftE {α : Type} (x : Except NodeError α) : NodeM α :=
  fun inv => (inv, x)

/-- Observable outcome of one `subprocess.check_output(["docker-machine"]
+ args)` invocation followed by `.decode('utf-8')`: either the decoded
standard output of a zero-exit run, or one of the three failure modes. -/
inductive ProcOutcome
  | success (stdout : String)  -- exit status 0, output decodes as UTF-8
  | exitFailure                -- non-zero exit: subprocess.CalledProcessError
  | notFound                   -- program not found: OSError
  | decodeFailure              -- output not decodable: UnicodeDecodeError
deriving Repr

/-- `_run_command` (line 84-85): `subprocess.check_output([...]).decode
('utf-8').strip()` — on success the decoded output is stripped with
Python `str.strip()` (both ends); every failure mode raises. -/
def runCommandResult : ProcOutcome → Except NodeError String
  | .success out => .ok (pyStrip out)
  | .exitFailure => .error .toolError
  | .notFound => .error .toolError
  | .decodeFailure => .error .toolError

/-- `re.search` specialised to the exact pattern family line 123 can
build, `NAME="([^"]+)"`: finds the first occurrence of `NAME="` in the
text and captures the non-empty run of non-quote characters that must
be followed by a closing quote. -/
def matchEnvValue (name text : String) : Option String :=
  match pySplitStr text (name ++ "=\"") with
  | _ :: after :: _ =>
    let v := after.data.takeWhile (fun c => c != '"')
    if v ≠ [] ∧ v.length < after.data.length then some (String.mk v) else none
  | _ => none

/-- `re.search(pattern, text).group(1)` for the patterns of line 123:
the pattern must have the literal shape `PREFIX="([^"]+)"`. -/
def reSearchValue (pattern text : String) : Option String :=
  if pattern.endsWith "=\"([^\"]+)\"" then
    matchEnvValue (pattern.dropRight 10) text
  else none

/-- Lines 122-124: for each of the four fixed names, build the search
pattern with `'\x7b1\x7d="([^"]+)"'.format(env_var_name)`, search `env_out`,
and set the `dm_`-prefixed variable (whose name is also built with a
`\x7b1\x7d` template).  `.group(1)` on a failed search is an
`AttributeError` on `None`. -/
def envLoop (id env_out : String) : List String → NodeM Unit
  | [] => pure ()
  | name :: rest => do
    let pattern ← liftE ((pyFormat "{1}=\"([^\"]+)\"" [name]).mapError NodeError.formatError)
    match reSearchValue pattern env_out with
    | some v => do
      let varName ← liftE ((pyFormat "dm_{1}" [name]).mapError NodeError.formatError)
      mutate (fun inv => setVariable inv id varName (.str v))
      envLoop id env_out rest
    | none => liftE (.error .attributeError)

/-- The environment-block pass of lines 122-124 over the four fixed
variable names. -/
def applyEnvVars (id env_out : String) : NodeM Unit :=
  envLoop id env_out
    ["DOCKER_TLS_VERIFY", "DOCKER_HOST", "DOCKER_CERT_PATH", "DOCKER_MACHINE_NAME"]

/-- Python `kv_pair.split(split_separator)` (line 133): raises
`ValueError` on an empty separator, otherwise splits on every
occurrence. -/
def pySplit (s sep : String) : Except NodeError (List String) :=
  if sep = "" then .error .valueError else .ok (pySplitStr s sep)

/-- The tuple unpacking `k, v = parts` (line 133): succeeds exactly on
two-element lists, otherwise raises `ValueError`. -/
def unpack2 : List String → Except NodeError (String × String)
  | [k, v] => .ok (k, v)
  | _ => .error .valueError

/-- The parsing decision of lines 131-136 for one comma-separated
element: with splitting enabled and the separator occurring in the
element, `kv_pair.split(separator)` must produce exactly two pieces
(`k, v = ...`); otherwise the element is a bare tag. -/
def tagElement (splitEnabled : Bool) (sep kv_pair : String) : Except NodeError TagEntry :=
  if splitEnabled = true ∧ pyIn sep kv_pair then
    match pySplit kv_pair sep with
    | .error e => .error e
    | .ok parts => (unpack2 parts).map (fun kv => .pair kv.1 kv.2)
  else .ok (.bare kv_pair)

/-- Error-propagating map over a list (the tag loop stops at the first
raised exception). -/
def mapMExcept {α β : Type} (f : α → Except NodeError β) : List α → Except NodeError (List β)
  | [] => .ok []
  | a :: rest =>
    match f a with
    | .error e => .error e
    | .ok b =>
      match mapMExcept f rest with
      | .error e => .error e
      | .ok bs => .ok (b :: bs)

/-- The TagParser component extracted from lines 131-136: split the raw
tag string on `,` and classify each element by `tagElement`. -/
def tagParse (raw : String) (splitEnabled : Bool) (sep : String) :
    Except NodeError (List TagEntry) :=
  mapMExcept (tagElement splitEnabled sep) (pySplitStr raw ",")

/-- Modelled from the spec: the TagParser contract of section 4.4 / the
claim, which splits an element on the FIRST occurrence of the separator
(total, never failing).  Declared only to be compared with `tagParse`,
the definition taken from the code. -/
def specTagElement (splitEnabled : Bool) (sep e : String) : TagEntry :=
  if splitEnabled = true ∧ pyIn sep e then
    match pySplitStr e sep with
    | k :: restParts => .pair k (joinSep sep restParts)
    | [] => .bare e
  else .bare e

/-- Modelled from the spec: TagParser over a whole raw tag string. -/
def specTagParse (raw : String) (splitEnabled : Bool) (sep : String) : List TagEntry :=
  (pySplitStr raw ",").map (specTagElement splitEnabled sep)

/-- Lines 131-136, the variable-setting tag loop.  The pair branch
formats the variable name with `'dm_tag_\x7b1\x7d'.format(k)`; the bare
branch formats `'dm_tag_\x7b1\x7d'.format(kv_pair)` and then calls
`set_variable(id, name)` with its required `value` argument missing,
which would raise `TypeError` (the format call raises first). -/
def tagLoop (split_tags : Bool) (sep id : String) : List String → NodeM Unit
  | [] => pure ()
  | kv_pair :: rest => do
    if split_tags = true ∧ pyIn sep kv_pair then
      let parts ← liftE (pySplit kv_pair sep)
      let kv ← liftE (unpack2 parts)
      let name ← liftE ((pyFormat "dm_tag_{1}" [kv.1]).mapError NodeError.formatError)
      mutate (fun inv => setVariable inv id name (.str kv.2))
    else
      let _name ← liftE ((pyFormat "dm_tag_{1}" [kv_pair]).mapError NodeError.formatError)
      liftE (.error .typeError)
    tagLoop split_tags sep id rest

/-- The tag pass of lines 131-136 (`for kv_pair in tags.split(','):`). -/
def applyTagVars (split_tags : Bool) (sep id tags : String) : NodeM Unit :=
  tagLoop split_tags sep id (pySplitStr tags ",")

/-- Python `d[k]` on a parsed JSON value: `KeyError` when the key is
absent, `TypeError`-style failure when the value is not an object. -/
def jsonGet (j : Json) (k : String) : Except NodeError Json :=
  match j with
  | .obj fields =>
    match fields.lookup k with
    | some v => .ok v
    | none => .error (.keyError k)
  | _ => .error .typeError

/-- Requires a JSON string (host ids, group names and the tag string
are used as Python strings by the surrounding code). -/
def jsonStr : Json → Except NodeError String
  | .str s => .ok s
  | _ => .error .typeError

/-- A valid node descriptor: the fields `_populate` reads through fixed
paths of the `inspect` JSON output. -/
structure Descriptor where
  machineName : String   -- Driver.MachineName
  ipAddress : String     -- Driver.IPAddress
  sshPort : Int          -- Driver.SSHPort
  sshUser : String       -- Driver.SSHUser
  sshKeyPath : String    -- Driver.SSHKeyPath
  tags : String          -- Driver.Tags
  driverName : String    -- DriverName
deriving DecidableEq, Repr

/-- Line 97: the inventory host key is the descriptor's
`Driver.MachineName`; the id the machine was queried under is not
consulted. -/
def nodeHostId (d : Descriptor) : String :=
  d.machineName

/-- Lines 98-101: `add_host(id)`, `add_group(DriverName)`,
`add_host(id, group=DriverName)`, `add_host(id, group='all')`. -/
def registerNode (inv : Inventory) (d : Descriptor) : Inventory :=
  addHostToGroup
    (addHostToGroup
      (addGroup (addHost inv (nodeHostId d)) d.driverName)
      (nodeHostId d) d.driverName)
    (nodeHostId d) "all"

/-- The registration pass of lines 88 and 97-101 over a sequence of
valid node descriptors. -/
def buildRegistration (ds : List Descriptor) : Inventory :=
  ds.foldl registerNode initialInventory

/-- Line 112: the argument vector of the `env` query,
`_run_command('env', '--shell=bash', id)`, where `id` is the host key
of line 97. -/
def envCommand (id : String) : List String :=
  ["env", "--shell=bash", id]

/-- The resolved plugin options consumed by `_populate`.  The
constructed-inventory rule options (`compose`, `groups`,
`keyed_groups`) are opaque to this core and kept as the strings that
are also interpolated into the debug messages. -/
structure Config where
  verbose_output : Bool
  split_tags : Bool
  split_separator : String
  strict : Bool
  compose : String
  groups : String
  keyed_groups : String

/-- The external world of one discovery pass: the `docker-machine` CLI
outcomes, Python's `json.loads`, and the three constructed-inventory
collaborator entry points (`_set_composite_vars`,
`_add_host_to_composed_groups`, `_add_host_to_keyed_groups`), which are
external code invoked with (rules, node attributes, host, strict). -/
structure World where
  ls : ProcOutcome
  inspect : String → ProcOutcome
  env : String → ProcOutcome
  loads : String → Except NodeError Json
  setCompositeVars : String → Json → String → Bool → NodeM Unit
  addHostToComposedGroups : String → Json → String → Bool → NodeM Unit
  addHostToKeyedGroups : String → Json → String → Bool → NodeM Unit

/-- One iteration of the `for self.node in self.nodes:` loop, lines
93-159, in source order.  Every debug message is built eagerly with
`str.format` before `display.debug` is called, so a failing format
raises inside the loop.  The final debug of line 159 interpolates
`self.inventory.get_host(id)`; its argument is irrelevant because the
`\x7b1\x7d` field is out of range for the single-argument tuple. -/
def processNode (w : World) (cfg : Config) (node : String) : NodeM Unit := do
  let _ ← liftE ((pyFormat "docker_machine inventory: inspecting machine {1}" [node]).mapError .formatError)
  let inspectOut ← liftE (runCommandResult (w.inspect node))
  let node_attrs ← liftE (w.loads inspectOut)
  let id ← liftE (jsonGet node_attrs "Driver" >>= (jsonGet · "MachineName") >>= jsonStr)
  mutate (fun inv => addHost inv id)
  let driverName ← liftE (jsonGet node_attrs "DriverName" >>= jsonStr)
  mutate (fun inv => addGroup inv driverName)
  mutate (fun inv => addHostToGroup inv id driverName)
  mutate (fun inv => addHostToGroup inv id "all")
  let ip ← liftE (jsonGet node_attrs "Driver" >>= (jsonGet · "IPAddress"))
  mutate (fun inv => setVariable inv id "ansible_host" ip)
  let port ← liftE (jsonGet node_attrs "Driver" >>= (jsonGet · "SSHPort"))
  mutate (fun inv => setVariable inv id "ansible_port" port)
  let sshUser ← liftE (jsonGet node_attrs "Driver" >>= (jsonGet · "SSHUser"))
  mutate (fun inv => setVariable inv id "ansible_user" sshUser)
  mutate (fun inv => setVariable inv id "ansible_ssh_common_args" (.str "-o StrictHostKeyChecking=no"))
  let keyPath ← liftE (jsonGet node_attrs "Driver" >>= (jsonGet · "SSHKeyPath"))
  mutate (fun inv => setVariable inv id "ansible_ssh_private_key_file" keyPath)
  let _ ← liftE ((pyFormat "docker_machine inventory: querying env for machine {1}" [node]).mapError .formatError)
  let env_out ← liftE (runCommandResult (w.env id))
  applyEnvVars id env_out
  let tags ← liftE (jsonGet node_attrs "Driver" >>= (jsonGet · "Tags") >>= jsonStr)
  let _ ← liftE ((pyFormat "docker_machine inventory: parsing tags for machine {1} with tags {2}" [node, tags]).mapError .formatError)
  applyTagVars cfg.split_tags cfg.split_separator id tags
  if cfg.verbose_output then
    mutate (fun inv => setVariable inv id "docker_machine_node_attributes" node_attrs)
  else
    pure ()
  let _ ← liftE ((pyFormat "docker_machine inventory: setting composite vars for machine {1} with compose {2}" [node, cfg.compose]).mapError .formatError)
  w.setCompositeVars cfg.compose node_attrs id cfg.strict
  let _ ← liftE ((pyFormat "docker_machine inventory: adding host to composed groups for machine {1} with groups {2}" [node, cfg.groups]).mapError .formatError)
  w.addHostToComposedGroups cfg.groups node_attrs id cfg.strict
  let _ ← liftE ((pyFormat "docker_machine inventory: adding host to composed groups for machine {1} with keyed_groups {2}" [node, cfg.keyed_groups]).mapError .formatError)
  w.addHostToKeyedGroups cfg.keyed_groups node_attrs id cfg.strict
  let _ ← liftE ((pyFormat "docker_machine inventory: added machine {1}" [id]).mapError .formatError)
  pure ()

/-- The `for self.node in self.nodes:` loop. -/
def runNodes (w : World) (cfg : Config) : List String → NodeM Unit
  | [] => pure ()
  | node :: rest => do
    processNode w cfg node
    runNodes w cfg rest

/-- `_populate` (lines 87-163): add the `all` group, list machine ids
(`ls -q`, one per line), process each node, and wrap any raised
exception into the single `AnsibleError` of lines 161-163.  The
returned pair is the final state of the in-place mutated
`self.inventory` together with the success-or-wrapped-error outcome
seen by the caller. -/
def populate (w : World) (cfg : Config) : Inventory × Except DiscoveryError Unit :=
  match runCommandResult w.ls with
  | .error e => (initialInventory, .error (.wrapped e))
  | .ok out =>
    let p := runNodes w cfg (pySplitlines out) initialInventory
    (p.1, p.2.mapError .wrapped)

/-- The node descriptor of the end-to-end scenario of the spec. -/
def routinatorJson : Json :=
  .obj [("Driver", .obj [
      ("MachineName", .str "routinator"),
      ("IPAddress", .str "134.209.204.160"),
      ("SSHPort", .num 22),
      ("SSHUser", .str "root"),
      ("SSHKeyPath", .str "/root/.ssh/id_rsa"),
      ("Tags", .str "gantry_component:routinator,env:prod")]),
    ("DriverName", .str "digitalocean")]

/-- The raw `docker-machine inspect routinator` output of the scenario. -/
def routinatorInspectText : String :=
  "\x7b\"Driver\":\x7b\"MachineName\":\"routinator\",\"IPAddress\":\"134.209.204.160\",\"SSHPort\":22,\"SSHUser\":\"root\",\"SSHKeyPath\":\"/root/.ssh/id_rsa\",\"Tags\":\"gantry_component:routinator,env:prod\"\x7d,\"DriverName\":\"digitalocean\"\x7d"

/-- The `docker-machine env --shell=bash routinator` output of the
scenario: all four required `NAME="value"` lines. -/
def routinatorEnvText : String :=
  "export DOCKER_TLS_VERIFY=\"1\"\nexport DOCKER_HOST=\"tcp://134.209.204.160:2376\"\nexport DOCKER_CERT_PATH=\"/root/.docker/machine/machines/routinator\"\nexport DOCKER_MACHINE_NAME=\"routinator\"\n# Run this command to configure your shell:\n# eval $(docker-machine env --shell=bash routinator)"

/-- The external world of the end-to-end scenario: listing returns the
single id `routinator`, inspect returns its descriptor, env returns the
four-line block, and the constructed collaborator has no rules. -/
def routinatorWorld : World where
  ls := .success "routinator\n"
  inspect := fun i => if i = "routinator" then .success routinatorInspectText else .exitFailure
  env := fun i => if i = "routinator" then .success routinatorEnvText else .exitFailure
  loads := fun s => if s = routinatorInspectText then .ok routinatorJson else .error .jsonError
  setCompositeVars := fun _ _ _ _ => pure ()
  addHostToComposedGroups := fun _ _ _ _ => pure ()
  addHostToKeyedGroups := fun _ _ _ _ => pure ()

/-- Options of the scenario: `split_tags=true`, separator `:`. -/
def routinatorConfig : Config :=
  ⟨true, true, ":", false, "", "", ""⟩

/-- A minimal world whose listing returns one machine id `m1`. -/
def miniWorld : World where
  ls := .success "m1\n"
  inspect := fun _ => .exitFailure
  env := fun _ => .exitFailure
  loads := fun _ => .error .jsonError
  setCompositeVars := fun _ _ _ _ => pure ()
  addHostToComposedGroups := fun _ _ _ _ => pure ()
  addHostToKeyedGroups := fun _ _ _ _ => pure ()

/-- A world whose listing command itself fails. -/
def lsFailWorld : World :=
  { miniWorld with ls := .exitFailure }

/-- A world whose listing returns empty output. -/
def emptyWorld : World :=
  { miniWorld with ls := .success "" }

/-- The plugin's default options. -/
def defaultConfig : Config :=
  ⟨true, false, ":", false, "", "", ""⟩

/-- Every loop iteration fails at its very first statement, the debug
message of line 94 whose template uses replacement index 1 with a
single format argument, before any mutation of the inventory. -/
theorem processNode_fails (w : World) (cfg : Config) (node : String) (inv : Inventory) :
    processNode w cfg node inv = (inv, .error (.formatError (.indexOutOfRange 1))) := rfl

/-- A non-empty node list makes the loop fail immediately, leaving the
inventory untouched. -/
theorem runNodes_cons_fails (w : World) (cfg : Config) (n : String) (rest : List String)
    (inv : Inventory) :
    runNodes w cfg (n :: rest) inv = (inv, .error (.formatError (.indexOutOfRange 1))) := rfl

/-- The final inventory of a discovery pass is always the initial one
(group `all` only): a non-empty node list raises before the first
mutation, an empty one performs none. -/
theorem populate_fst (w : World) (cfg : Config) :
    (populate w cfg).1 = initialInventory := by
  unfold populate
  cases hr : runCommandResult w.ls with
  | error e => rfl
  | ok out =>
    show (runNodes w cfg (pySplitlines out) initialInventory).1 = _
    cases hn : pySplitlines out with
    | nil => rfl
    | cons n rest => rw [runNodes_cons_fails]

/-- C1: in the end-to-end scenario (listing returns `routinator`,
inspect returns the documented descriptor, the env text has all four
DOCKER_* lines, `split_tags=true`, separator `:`), the spec expects a
successful pass producing host `routinator` in groups `all` and
`digitalocean` with its `ansible_*`, `dm_DOCKER_*` and `dm_tag_*`
variables.  The code instead raises `IndexError` while formatting the
first debug message of the loop (line 94, `'... machine \x7b1\x7d'.format
(self.node)`), the pass fails with the wrapped discovery error, and no
host is added. -/
theorem populate_routinator_scenario_raises :
    populate routinatorWorld routinatorConfig
      = (initialInventory, .error (.wrapped (.formatError (.indexOutOfRange 1))))
    ∧ initialInventory.hosts = [] := ⟨rfl, rfl⟩

/-- C2: whenever listing machines returns at least one node id, the
per-node processing raises before any host is added — the first
statement of the loop body formats `'... inspecting machine \x7b1\x7d'` with
a single argument, an `IndexError` — so the discovery pass always fails
with the single wrapped discovery error and the returned inventory
never contains any host. -/
theorem populate_nonempty_listing_always_fails (w : World) (cfg : Config)
    (s n : String) (rest : List String)
    (hls : w.ls = .success s)
    (hnodes : pySplitlines (pyStrip s) = n :: rest) :
    populate w cfg = (initialInventory, .error (.wrapped (.formatError (.indexOutOfRange 1))))
    ∧ initialInventory.hosts = [] := by
  refine ⟨?_, rfl⟩
  unfold populate
  rw [hls]
  show ((runNodes w cfg (pySplitlines (pyStrip s)) initialInventory).1,
        (runNodes w cfg (pySplitlines (pyStrip s)) initialInventory).2.mapError DiscoveryError.wrapped) = _
  rw [hnodes, runNodes_cons_fails]
  rfl

/-- Witness for C2 at a concrete world listing the single id `m1`. -/
theorem populate_nonempty_listing_always_fails_w :
    populate miniWorld defaultConfig
      = (initialInventory, .error (.wrapped (.formatError (.indexOutOfRange 1))))
    ∧ initialInventory.hosts = [] :=
  populate_nonempty_listing_always_fails miniWorld defaultConfig "m1\n" "m1" [] rfl (by decide)

/-- C3: if any error is raised during the discovery pass, the pass
fails as a whole with the single wrapped discovery error and the
returned inventory carries nothing from any node: it is exactly the
initial inventory, with no hosts, no memberships and no variables. -/
theorem populate_error_no_partial_inventory (w : World) (cfg : Config) (e : DiscoveryError)
    (h : (populate w cfg).2 = .error e) :
    populate w cfg = (initialInventory, .error e)
    ∧ initialInventory.hosts = [] ∧ initialInventory.members = []
    ∧ initialInventory.hostVars = [] := by
  refine ⟨?_, rfl, rfl, rfl⟩
  have hp : populate w cfg = ((populate w cfg).1, (populate w cfg).2) := rfl
  rw [hp, populate_fst, h]

/-- Witness for C3 at a world whose listing command fails. -/
theorem populate_error_no_partial_inventory_w :
    populate lsFailWorld defaultConfig = (initialInventory, .error (.wrapped .toolError))
    ∧ initialInventory.hosts = [] ∧ initialInventory.members = []
    ∧ initialInventory.hostVars = [] :=
  populate_error_no_partial_inventory lsFailWorld defaultConfig (.wrapped .toolError) rfl

/-- C10: when listing machines returns empty output, the discovery pass
completes without error and the resulting inventory contains only the
group `all` — no hosts, no driver groups, no memberships, no host
variables. -/
theorem populate_empty_listing_ok (w : World) (cfg : Config) (s : String)
    (hls : w.ls = .success s)
    (hempty : pySplitlines (pyStrip s) = []) :
    populate w cfg = (initialInventory, .ok ())
    ∧ initialInventory.groups = ["all"] ∧ initialInventory.hosts = []
    ∧ initialInventory.members = [] ∧ initialInventory.hostVars = [] := by
  refine ⟨?_, rfl, rfl, rfl, rfl⟩
  unfold populate
  rw [hls]
  show ((runNodes w cfg (pySplitlines (pyStrip s)) initialInventory).1,
        (runNodes w cfg (pySplitlines (pyStrip s)) initialInventory).2.mapError DiscoveryError.wrapped) = _
  rw [hempty]
  rfl

/-- Witness for C10 at a world whose listing output is empty. -/
theorem populate_empty_listing_ok_w :
    populate emptyWorld defaultConfig = (initialInventory, .ok ())
    ∧ initialInventory.groups = ["all"] ∧ initialInventory.hosts = []
    ∧ initialInventory.members = [] ∧ initialInventory.hostVars = [] :=
  populate_empty_listing_ok emptyWorld defaultConfig "" rfl (by decide)

/-- With a non-empty separator, Python `sub in s` is exactly "splitting
on `sub` yields at least two pieces". -/
theorem pyIn_iff_of_ne (sub s : String) (h : sub ≠ "") :
    pyIn sub s ↔ 2 ≤ (pySplitStr s sub).length :=
  or_iff_right h

/-- Per-element agreement of the code's tag splitter with the spec's
first-occurrence splitter, whenever the separator occurs at most once
in the element. -/
theorem tagElement_agree (b : Bool) (sep e : String) (hsep : sep ≠ "")
    (hle : (pySplitStr e sep).length ≤ 2) :
    tagElement b sep e = .ok (specTagElement b sep e) := by
  unfold tagElement specTagElement
  by_cases hc : b = true ∧ pyIn sep e
  · rw [if_pos hc, if_pos hc]
    have h2 : 2 ≤ (pySplitStr e sep).length := (pyIn_iff_of_ne sep e hsep).mp hc.2
    obtain ⟨k, v, hkv⟩ := List.length_eq_two.mp (le_antisymm hle h2)
    have hps : pySplit e sep = .ok [k, v] := by
      unfold pySplit
      rw [if_neg hsep, hkv]
    rw [hps, hkv]
    rfl
  · rw [if_neg hc, if_neg hc]

/-- Error-free `mapMExcept` agrees with `List.map`. -/
theorem mapMExcept_ok {α β : Type} (f : α → Except NodeError β) (g : α → β) :
    ∀ es : List α, (∀ e ∈ es, f e = .ok (g e)) → mapMExcept f es = .ok (es.map g)
  | [], _ => rfl
  | a :: rest, h => by
    unfold mapMExcept
    rw [h a (List.mem_cons_self a rest),
      mapMExcept_ok f g rest (fun e he => h e (List.mem_cons_of_mem a he))]
    rfl

/-- Counterexample to C5: the claim says an element in which the
separator occurs is split on its FIRST occurrence, so
`parse("a:b:c", true, ":")` would yield `Pair("a", "b:c")`.  The code
instead performs `k, v = kv_pair.split(separator)`, which splits on
EVERY occurrence and raises `ValueError` when the separator occurs more
than once. -/
theorem tagParse_first_occurrence_cex :
    tagParse "a:b:c" true ":" = .error .valueError
    ∧ tagParse "a:b:c" true ":" ≠ .ok [.pair "a" "b:c"]
    ∧ specTagParse "a:b:c" true ":" = [.pair "a" "b:c"] := by
  refine ⟨rfl, ?_, by decide⟩
  intro h
  have h0 : tagParse "a:b:c" true ":" = .error .valueError := rfl
  rw [h0] at h
  exact Except.noConfusion h

/-- C5 (amended): the raw tag string is split on `,`; each element in
which splitting is enabled and the separator occurs is split on the
separator into a `(key, value)` pair PROVIDED the separator occurs
exactly once there (so first-occurrence and all-occurrence splitting
coincide); an element with several separator occurrences raises
`ValueError`; every other element becomes a bare tag.  Under the
at-most-one-occurrence proviso the code's parse agrees with the spec's
first-occurrence parse. -/
theorem tagParse_refines_spec (raw : String) (b : Bool) (sep : String)
    (hsep : sep ≠ "")
    (hocc : ∀ e ∈ pySplitStr raw ",", (pySplitStr e sep).length ≤ 2) :
    tagParse raw b sep = .ok (specTagParse raw b sep) :=
  mapMExcept_ok _ _ _ (fun e he => tagElement_agree b sep e hsep (hocc e he))

/-- Witness for C5 at the spec's own round-trip examples. -/
theorem tagParse_refines_spec_w :
    tagParse "a,b:c" true ":" = .ok (specTagParse "a,b:c" true ":")
    ∧ specTagParse "a,b:c" true ":" = [.bare "a", .pair "b" "c"]
    ∧ specTagParse "a,b:c" false ":" = [.bare "a", .bare "b:c"]
    ∧ tagParse "a,b:c" false ":" = .ok [.bare "a", .bare "b:c"] :=
  ⟨tagParse_refines_spec "a,b:c" true ":" (by decide) (by decide),
   by decide, by decide, rfl⟩

/-- C6: the claim says each bare tag sets a valueless variable
`dm_tag_<name>` and each pair sets `dm_tag_<key> = value`.  In the code
both branches of lines 131-136 raise `IndexError` while formatting the
variable name with `'dm_tag_\x7b1\x7d'` and a single argument (and the bare
branch additionally omits `set_variable`'s required value argument,
a `TypeError` had the formatting succeeded), so no `dm_tag_` variable
is ever set and the inventory is left untouched — shown here on the
scenario's pair tags and on a bare tag. -/
theorem applyTagVars_raises :
    applyTagVars true ":" "routinator" "gantry_component:routinator,env:prod" initialInventory
      = (initialInventory, .error (.formatError (.indexOutOfRange 1)))
    ∧ applyTagVars false ":" "routinator" "sometag" initialInventory
      = (initialInventory, .error (.formatError (.indexOutOfRange 1))) :=
  ⟨rfl, rfl⟩

/-- Counterexample to C7: on env text containing all four required
`NAME="value"` lines (the scenario's), the claim expects the four
values to be extracted.  The code raises `IndexError` while building
the very first search pattern with `'\x7b1\x7d="([^"]+)"'.format(name)`, so
nothing is extracted and no `dm_` variable is set. -/
theorem applyEnvVars_wellformed_cex :
    applyEnvVars "routinator" routinatorEnvText initialInventory
      = (initialInventory, .error (.formatError (.indexOutOfRange 1)))
    ∧ initialInventory.hostVars = [] :=
  ⟨rfl, rfl⟩

/-- C7 (amended): environment-block parsing never extracts anything:
for every host id, env text and inventory state it raises the
positional-index `IndexError` of the `'\x7b1\x7d="([^"]+)"'` pattern template
before any search happens, leaving the inventory unchanged; the
exception propagates out of the node loop into the single wrapped
discovery error (the handler of lines 161-163 wraps the whole loop, so
the failure aborts the entire pass, not just the current node), and no
`MissingEnvironmentValueError`-style report of a missing name can ever
be produced. -/
theorem applyEnvVars_always_raises (id text : String) (inv : Inventory) :
    applyEnvVars id text inv = (inv, .error (.formatError (.indexOutOfRange 1))) := rfl

theorem members_addHost (inv : Inventory) (i : String) :
    (addHost inv i).members = inv.members := by
  unfold addHost
  split <;> rfl

theorem members_addGroup (inv : Inventory) (g : String) :
    (addGroup inv g).members = inv.members := by
  unfold addGroup
  split <;> rfl

theorem hosts_addGroup (inv : Inventory) (g : String) :
    (addGroup inv g).hosts = inv.hosts := by
  unfold addGroup
  split <;> rfl

theorem mem_hosts_addHost (inv : Inventory) (i h : String) :
    h ∈ (addHost inv i).hosts ↔ h ∈ inv.hosts ∨ h = i := by
  unfold addHost
  by_cases hmem : i ∈ inv.hosts
  · rw [if_pos hmem]
    constructor
    · exact Or.inl
    · rintro (hh | rfl)
      · exact hh
      · exact hmem
  · rw [if_neg hmem]
    show h ∈ inv.hosts ++ [i] ↔ _
    simp

theorem hosts_addHostToGroup (inv : Inventory) (i g : String) :
    (addHostToGroup inv i g).hosts = (addHost inv i).hosts := by
  unfold addHostToGroup
  split <;> rfl

theorem mem_hosts_addHostToGroup (inv : Inventory) (i g h : String) :
    h ∈ (addHostToGroup inv i g).hosts ↔ h ∈ inv.hosts ∨ h = i := by
  rw [hosts_addHostToGroup]
  exact mem_hosts_addHost inv i h

theorem memberOf_addHostToGroup (inv : Inventory) (i g g' h' : String) :
    memberOf (addHostToGroup inv i g) g' h' ↔ memberOf inv g' h' ∨ (g' = g ∧ h' = i) := by
  unfold addHostToGroup memberOf
  by_cases hmem : (g, i) ∈ (addHost inv i).members
  · rw [if_pos hmem, members_addHost]
    rw [members_addHost] at hmem
    constructor
    · exact Or.inl
    · rintro (hh | ⟨rfl, rfl⟩)
      · exact hh
      · exact hmem
  · rw [if_neg hmem]
    show (g', h') ∈ (addHost inv i).members ++ [(g, i)] ↔ _
    rw [List.mem_append, members_addHost]
    simp [Prod.ext_iff]

/-- Membership after registering one descriptor: the previous
memberships plus the host under its driver-named group and under
`all`. -/
theorem memberOf_registerNode (inv : Inventory) (d : Descriptor) (g h : String) :
    memberOf (registerNode inv d) g h ↔
      memberOf inv g h ∨ (h = d.machineName ∧ (g = d.driverName ∨ g = "all")) := by
  unfold registerNode nodeHostId
  rw [memberOf_addHostToGroup, memberOf_addHostToGroup]
  unfold memberOf
  rw [members_addGroup, members_addHost]
  constructor
  · rintro ((hm | ⟨rfl, rfl⟩) | ⟨rfl, rfl⟩)
    · exact Or.inl hm
    · exact Or.inr ⟨rfl, Or.inl rfl⟩
    · exact Or.inr ⟨rfl, Or.inr rfl⟩
  · rintro (hm | ⟨rfl, hg | hg⟩)
    · exact Or.inl (Or.inl hm)
    · exact Or.inl (Or.inr ⟨hg, rfl⟩)
    · exact Or.inr ⟨hg, rfl⟩

theorem mem_hosts_registerNode (inv : Inventory) (d : Descriptor) (h : String) :
    h ∈ (registerNode inv d).hosts ↔ h ∈ inv.hosts ∨ h = d.machineName := by
  unfold registerNode nodeHostId
  rw [mem_hosts_addHostToGroup, mem_hosts_addHostToGroup, hosts_addGroup, mem_hosts_addHost]
  constructor
  · rintro (((hh | rfl) | rfl) | rfl)
    · exact Or.inl hh
    · exact Or.inr rfl
    · exact Or.inr rfl
    · exact Or.inr rfl
  · rintro (hh | rfl)
    · exact Or.inl (Or.inl (Or.inl hh))
    · exact Or.inl (Or.inl (Or.inr rfl))

theorem memberOf_foldl_registerNode (ds : List Descriptor) :
    ∀ (inv : Inventory) (g h : String),
      memberOf (ds.foldl registerNode inv) g h ↔
        memberOf inv g h ∨ ∃ d ∈ ds, h = d.machineName ∧ (g = d.driverName ∨ g = "all") := by
  induction ds with
  | nil => intro inv g h; simp
  | cons d rest ih =>
    intro inv g h
    rw [List.foldl_cons, ih, memberOf_registerNode, List.exists_mem_cons_iff]
    exact or_assoc

theorem mem_hosts_foldl_registerNode (ds : List Descriptor) :
    ∀ (inv : Inventory) (h : String),
      h ∈ (ds.foldl registerNode inv).hosts ↔
        h ∈ inv.hosts ∨ ∃ d ∈ ds, h = d.machineName := by
  induction ds with
  | nil => intro inv h; simp
  | cons d rest ih =>
    intro inv h
    rw [List.foldl_cons, ih, mem_hosts_registerNode, List.exists_mem_cons_iff]
    exact or_assoc

theorem members_initialInventory : initialInventory.members = [] := rfl

theorem hosts_initialInventory : initialInventory.hosts = [] := rfl

/-- Two descriptors reporting the same machine name under different
drivers. -/
def descA : Descriptor := ⟨"h", "10.0.0.1", 22, "root", "/k", "", "a"⟩

def descB : Descriptor := ⟨"h", "10.0.0.2", 22, "root", "/k", "", "b"⟩

/-- Counterexample to C4: the claim says every produced host belongs to
exactly one driver-named group.  Registering two descriptors that share
the machine name `h` but report the distinct drivers `a` and `b` puts
the single host `h` into BOTH driver-named groups. -/
theorem buildRegistration_two_driver_groups_cex :
    memberOf (buildRegistration [descA, descB]) "a" "h"
    ∧ memberOf (buildRegistration [descA, descB]) "b" "h"
    ∧ descA.driverName = "a" ∧ descB.driverName = "b"
    ∧ descA.machineName = "h" ∧ descB.machineName = "h"
    ∧ ("a" : String) ≠ "b" := by
  refine ⟨by decide, by decide, rfl, rfl, rfl, rfl, by decide⟩

/-- C4 (amended): for every sequence of valid node descriptors, the
produced hosts are exactly the machine names of the descriptors, and a
host is a member of a group exactly when the group is `all` or is the
`DriverName` of some descriptor carrying that host's machine name.
Hence every produced host is in `all` and in at least one driver-named
group, and in exactly one precisely when all descriptors sharing its
machine name agree on `DriverName` (in particular when machine names
are unique); descriptors sharing a name under different drivers place
the host in several driver-named groups. -/
theorem buildRegistration_membership (ds : List Descriptor) (g h : String) :
    (memberOf (buildRegistration ds) g h ↔
      ∃ d ∈ ds, h = d.machineName ∧ (g = d.driverName ∨ g = "all"))
    ∧ (h ∈ (buildRegistration ds).hosts ↔ ∃ d ∈ ds, h = d.machineName) := by
  unfold buildRegistration
  constructor
  · rw [memberOf_foldl_registerNode]
    unfold memberOf
    rw [members_initialInventory]
    simp
  · rw [mem_hosts_foldl_registerNode, hosts_initialInventory]
    simp

/-- C9: the inventory host key of a processed node is taken from the
descriptor's `Driver.MachineName` (line 97) with no validation against
the id the machine was queried under: when they differ, the
descriptor's machine name is the registered host, the queried id is
not, registration raises no error, and the machine name is also the
identifier handed to the subsequent `env --shell=bash` query
(line 112). -/
theorem hostKey_from_descriptor_not_queried (q : String) (d : Descriptor)
    (hne : q ≠ d.machineName) :
    nodeHostId d = d.machineName
    ∧ d.machineName ∈ (buildRegistration [d]).hosts
    ∧ q ∉ (buildRegistration [d]).hosts
    ∧ memberOf (buildRegistration [d]) "all" d.machineName
    ∧ envCommand (nodeHostId d) = ["env", "--shell=bash", d.machineName] := by
  refine ⟨rfl, ?_, ?_, ?_, rfl⟩
  · unfold buildRegistration
    rw [mem_hosts_foldl_registerNode, hosts_initialInventory]
    simp
  · unfold buildRegistration
    rw [mem_hosts_foldl_registerNode, hosts_initialInventory]
    simp
    exact hne
  · unfold buildRegistration
    rw [memberOf_foldl_registerNode]
    unfold memberOf
    rw [members_initialInventory]
    simp

/-- A descriptor whose machine name differs from the queried id. -/
def descActual : Descriptor :=
  ⟨"actual", "10.0.0.3", 22, "root", "/k", "", "digitalocean"⟩

theorem head_dropWhile_not {p : Char → Bool} :
    ∀ (l : List Char) (c : Char), (l.dropWhile p).head? = some c → p c = false := by
  intro l
  induction l with
  | nil =>
    intro c h
    exact absurd h (by simp)
  | cons a t ih =>
    intro c h
    rw [List.dropWhile_cons] at h
    by_cases hp : p a
    · rw [if_pos hp] at h
      exact ih c h
    · rw [if_neg hp] at h
      rw [List.head?_cons] at h
      injection h with h'
      cases hpa : p a with
      | true => exact absurd hpa hp
      | false => rw [← h']; exact hpa

theorem getLast_dropWhile {p : Char → Bool} :
    ∀ l : List Char, l.dropWhile p ≠ [] → (l.dropWhile p).getLast? = l.getLast? := by
  intro l
  induction l with
  | nil =>
    intro h
    exact absurd rfl h
  | cons a t ih =>
    intro h
    rw [List.dropWhile_cons] at h ⊢
    by_cases hp : p a
    · rw [if_pos hp] at h ⊢
      rw [ih h]
      have ht : t ≠ [] := by
        intro he
        rw [he] at h
        exact absurd rfl h
      cases t with
      | nil => exact absurd rfl ht
      | cons b t' => rw [List.getLast?_cons_cons]
    · rw [if_neg hp]

/-- Python `strip` removes only whitespace, and only from the two ends:
the input decomposes as whitespace, the stripped core, whitespace. -/
theorem pyStripL_decomp (l : List Char) :
    ∃ pre post, l = pre ++ (pyStripL l ++ post)
      ∧ (∀ c ∈ pre, isPySpace c = true) ∧ (∀ c ∈ post, isPySpace c = true) := by
  refine ⟨l.takeWhile isPySpace,
          ((l.dropWhile isPySpace).reverse.takeWhile isPySpace).reverse, ?_, ?_, ?_⟩
  · unfold pyStripL
    conv_lhs => rw [← List.takeWhile_append_dropWhile (p := isPySpace) (l := l)]
    congr 1
    conv_lhs => rw [← List.reverse_reverse (l.dropWhile isPySpace),
      ← List.takeWhile_append_dropWhile (p := isPySpace)
        (l := (l.dropWhile isPySpace).reverse)]
    rw [List.reverse_append]
  · intro c hc
    exact List.mem_takeWhile_imp hc
  · intro c hc
    rw [List.mem_reverse] at hc
    exact List.mem_takeWhile_imp hc

/-- The stripped result does not begin with whitespace. -/
theorem pyStripL_head_not_space (l : List Char) (c : Char)
    (h : (pyStripL l).head? = some c) : isPySpace c = false := by
  unfold pyStripL at h
  rw [List.head?_reverse] at h
  have hne : (l.dropWhile isPySpace).reverse.dropWhile isPySpace ≠ [] := by
    intro he
    rw [he] at h
    exact Option.noConfusion h
  rw [getLast_dropWhile _ hne, List.getLast?_reverse] at h
  exact head_dropWhile_not l c h

/-- The stripped result does not end with whitespace. -/
theorem pyStripL_last_not_space (l : List Char) (c : Char)
    (h : (pyStripL l).getLast? = some c) : isPySpace c = false := by
  unfold pyStripL at h
  rw [List.getLast?_reverse] at h
  exact head_dropWhile_not _ c h

/-- Counterexample to C8: the claim says leading whitespace of the
output is preserved, so process output `"  abc\n"` would come back as
`"  abc"`.  The code calls `str.strip()`, which removes the leading
whitespace too, returning `"abc"`. -/
theorem runCommand_keeps_no_leading_whitespace_cex :
    runCommandResult (.success "  abc\n") = .ok "abc"
    ∧ ("abc" : String) ≠ "  abc" := by
  constructor
  · have h : pyStrip "  abc\n" = "abc" := by decide
    show Except.ok (pyStrip "  abc\n") = Except.ok "abc"
    rw [h]
  · decide

/-- C8 (amended): `_run_command` returns the process's decoded standard
output with whitespace and newlines trimmed from BOTH ends — leading
whitespace is removed as well — and nothing else removed (the output
decomposes as whitespace ++ result ++ whitespace, and the result
neither begins nor ends with whitespace); every failure mode (non-zero
exit, program not found, undecodable output) raises the external tool
error. -/
theorem runCommand_spec (s : String) :
    runCommandResult (.success s) = .ok (pyStrip s)
    ∧ (∃ pre post, s.data = pre ++ ((pyStrip s).data ++ post)
        ∧ (∀ c ∈ pre, isPySpace c = true) ∧ (∀ c ∈ post, isPySpace c = true))
    ∧ (∀ c, (pyStrip s).data.head? = some c → isPySpace c = false)
    ∧ (∀ c, (pyStrip s).data.getLast? = some c → isPySpace c = false)
    ∧ runCommandResult .exitFailure = .error .toolError
    ∧ runCommandResult .notFound = .error .toolError
    ∧ runCommandResult .decodeFailure = .error .toolError := by
  refine ⟨rfl, ?_, ?_, ?_, rfl, rfl, rfl⟩
  · exact pyStripL_decomp s.data
  · intro c h
    exact pyStripL_head_not_space s.data c h
  · intro c h
    exact pyStripL_last_not_space s.data c h

/-- Witness for C8: the trimming of concrete output `" a "`. -/
theorem runCommand_spec_w :
    runCommandResult (.success " a ") = .ok (pyStrip " a ")
    ∧ pyStrip " a " = "a" :=
  ⟨(runCommand_spec " a ").1, by decide⟩

/-- Witness for C9: querying id `queried` while the descriptor reports
machine name `actual`. -/
theorem hostKey_from_descriptor_not_queried_w :
    nodeHostId descActual = descActual.machineName
    ∧ descActual.machineName ∈ (buildRegistration [descActual]).hosts
    ∧ "queried" ∉ (buildRegistration [descActual]).hosts
    ∧ memberOf (buildRegistration [descActual]) "all" descActual.machineName
    ∧ envCommand (nodeHostId descActual) = ["env", "--shell=bash", descActual.machineName] :=
  hostKey_from_descriptor_not_queried "queried" descActual (by decide)

end DockerMachine
